import Mathlib

/-!
Shallow embedding of the garmin-lt-public repository's core logic.

Conventions of the embedding:
* Instants (datetimes) are modelled as rational numbers measured in hours,
  so that `now - timestamp` is directly the age in hours
  (the Python code computes `(now - timestamp).total_seconds() / 3600`).
* Python `None` becomes `Option.none`; Python string truthiness
  (`if s:` — false for `None` and for the empty string) is the `truthy`
  function below.
* The ISO-8601 parser `datetime.fromisoformat` is an external stdlib
  collaborator; it is passed in as a parameter `parse_iso : String → Option ℚ`
  (`Option.none` models the parse raising an exception).
* File-system side effects are made explicit: the poll loop returns the list
  of state snapshots it writes, and the Gmail client's authentication returns
  the final contents of the token file alongside its outcome.
-/

/-- Python truthiness of an optional string: `None` and `""` are falsy
(`if url:` / `if timestamp_str:` in `src/web/main.py`). -/
def truthy : Option String → Bool
  | Option.none => false
  | Option.some s => !s.isEmpty

/-- The JSON record persisted by the monitor service and read back by the
web app (`read_state` in `src/web/main.py`); fields as in the state file. -/
structure WebState where
  url : Option String
  timestamp : Option String
  email_id : Option String
  subject : Option String
  error : Option String
deriving DecidableEq, Repr

/-- Result of `calculate_activity_status` in `src/web/main.py`. -/
structure ActivityStatus where
  url : Option String
  timestamp : Option String
  is_stale : Bool
  age_hours : Option ℚ
  status : String
deriving DecidableEq, Repr

/-- The tail of `calculate_activity_status` (`src/web/main.py` lines 151-166):
determine the status string from url truthiness and staleness, and assemble
the returned record. -/
def mk_result (url timestamp_str : Option String) (is_stale : Bool)
    (age_hours : Option ℚ) : ActivityStatus :=
  let status :=
    if truthy url && !is_stale then "active"
    else if truthy url && is_stale then "last_activity"
    else "waiting"
  { url := url, timestamp := timestamp_str, is_stale := is_stale,
    age_hours := age_hours, status := status }

/-- `calculate_activity_status` from `src/web/main.py` (lines 111-166).
`parse_iso` models `datetime.fromisoformat`; a `Option.none` result models the
parse raising, in which case the code swallows the exception and proceeds with
`age_hours = None`, `is_stale = False`. The inner match models the
`if timestamp_str:` guard (empty string is falsy, so no parse is attempted). -/
def calculate_activity_status (parse_iso : String → Option ℚ) (now : ℚ)
    (max_age_hours dead_age_hours : ℚ) (state : WebState) : ActivityStatus :=
  let url := state.url
  let timestamp_str := state.timestamp
  match (match timestamp_str with
         | Option.some s => if s.isEmpty then Option.none else parse_iso s
         | Option.none => Option.none) with
  | Option.some ts =>
      let age_hours := now - ts
      if age_hours > dead_age_hours then
        { url := Option.none, timestamp := Option.none, is_stale := false,
          age_hours := Option.none, status := "waiting" }
      else
        mk_result url timestamp_str (decide (age_hours > max_age_hours))
          (Option.some age_hours)
  | Option.none =>
      mk_result url timestamp_str false Option.none

/-- `read_state` from `src/web/main.py` (lines 82-108): the three possible
outcomes of reading the state file. -/
inductive StateFileRead where
  | missing
  | unreadable (msg : String)
  | content (state : WebState)
deriving DecidableEq, Repr

/-- `read_state` from `src/web/main.py`: a missing file yields the fixed
"Monitor service not running" record, a read/parse failure yields an
"Error reading state" record, otherwise the parsed content is returned. -/
def read_state : StateFileRead → WebState
  | StateFileRead.missing =>
      { url := Option.none, timestamp := Option.none, email_id := Option.none,
        subject := Option.none, error := Option.some "Monitor service not running" }
  | StateFileRead.unreadable msg =>
      { url := Option.none, timestamp := Option.none, email_id := Option.none,
        subject := Option.none,
        error := Option.some ("Error reading state: " ++ msg) }
  | StateFileRead.content s => s

/-- Result record of `EmailMonitor.get_activity_status` in
`src/email_monitor.py`; its timestamp field is the (timezone-adjusted)
datetime itself, kept here as the model instant. -/
structure EmailActivityStatus where
  url : Option String
  timestamp : Option ℚ
  is_stale : Bool
  age_hours : Option ℚ
  status : String
deriving DecidableEq, Repr

/-- Model of Python `round(x, 1)` (rounding to one decimal; Python uses
round-half-to-even, this model rounds halves up — the difference only matters
at exact multiples of 0.05 and no claim depends on it). -/
def round1 (q : ℚ) : ℚ := (round (q * 10) : ℤ) / 10

/-- `EmailMonitor.get_activity_status` from `src/email_monitor.py`
(lines 118-150). Note the staleness comparison here is
`age_hours >= max_age_hours` (non-strict), unlike the strict `>` used in
`calculate_activity_status` of `src/web/main.py`. The unreachable
`Option.none` arm of the match is a totality artifact: the guard has already
returned in that case. -/
def EmailMonitor.get_activity_status (now max_age_hours : ℚ)
    (current_livetrack_url : Option String) (current_timestamp : Option ℚ) :
    EmailActivityStatus :=
  if truthy current_livetrack_url = false ∨ current_timestamp = Option.none then
    { url := Option.none, timestamp := Option.none, is_stale := false,
      age_hours := Option.none, status := "waiting" }
  else
    match current_timestamp with
    | Option.some timestamp =>
        let age_hours := now - timestamp
        let is_stale := decide (age_hours ≥ max_age_hours)
        { url := current_livetrack_url, timestamp := Option.some timestamp,
          is_stale := is_stale, age_hours := Option.some (round1 age_hours),
          status := if is_stale then "last_activity" else "active" }
    | Option.none =>
        { url := Option.none, timestamp := Option.none, is_stale := false,
          age_hours := Option.none, status := "waiting" }

/-- The dictionary returned by `GmailClient.get_latest_livetrack_email`
(`src/monitor/gmail_client.py` lines 195-201). The timestamp is carried as
its ISO-format string (what `save_state` will persist), `Option.none` when
no date could be parsed. -/
structure EmailData where
  id : String
  subject : String
  date : String
  timestamp : Option String
  livetrack_url : Option String
deriving DecidableEq, Repr

/-- The JSON record written by `save_state` in
`src/monitor/monitor_service.py` (lines 38-71). -/
structure StateSnapshot where
  updated_at : ℚ
  url : Option String
  timestamp : Option String
  email_id : Option String
  subject : Option String
  error : Option String
deriving DecidableEq, Repr

/-- `save_state` from `src/monitor/monitor_service.py`: build the snapshot
that is written (atomically, temp file + rename) to the state file.
`now` is `datetime.now(timezone.utc)` at write time. -/
def save_state (now : ℚ) (email_data : Option EmailData)
    (error : Option String) : StateSnapshot :=
  let state : StateSnapshot :=
    { updated_at := now, url := Option.none, timestamp := Option.none,
      email_id := Option.none, subject := Option.none, error := error }
  match email_data with
  | Option.some d =>
      { state with
          url := d.livetrack_url
          timestamp := d.timestamp
          email_id := Option.some d.id
          subject := Option.some d.subject }
  | Option.none => state

/-- Outcome of one call to `gmail_client.get_latest_livetrack_email()` as
seen by the `try` block of `monitor_loop`: a dict, `None`, or a raised
exception carrying a message. -/
inductive FetchResult where
  | found (email_data : EmailData)
  | nothing
  | raised (msg : String)
deriving DecidableEq, Repr

/-- One iteration of the `while running` body of `monitor_loop`
(`src/monitor/monitor_service.py` lines 86-117): returns the list of
snapshots written during the iteration and the new `last_email_id`. -/
def monitor_cycle (now : ℚ) (fetch : FetchResult)
    (last_email_id : Option String) : List StateSnapshot × Option String :=
  match fetch with
  | FetchResult.found email_data =>
      let last := if Option.some email_data.id ≠ last_email_id
                  then Option.some email_data.id else last_email_id
      ([save_state now (Option.some email_data) Option.none], last)
  | FetchResult.nothing =>
      let last := if last_email_id ≠ Option.none
                  then Option.none else last_email_id
      ([save_state now Option.none Option.none], last)
  | FetchResult.raised msg =>
      ([save_state now Option.none
          (Option.some ("Error checking emails: " ++ msg))], last_email_id)

/-- `monitor_loop` of `src/monitor/monitor_service.py`, run over a finite
schedule of (wall-clock time, fetch outcome) pairs, starting from a given
`last_email_id` (`None` at loop entry, line 80): returns all snapshots
written, in order, and the final `last_email_id`. -/
def monitor_loop : List (ℚ × FetchResult) → Option String →
    List StateSnapshot × Option String
  | [], last_email_id => ([], last_email_id)
  | (now, fetch) :: rest, last_email_id =>
      let step := monitor_cycle now fetch last_email_id
      let tail := monitor_loop rest step.2
      (step.1 ++ tail.1, tail.2)

/-- Token material as loaded by `Credentials.from_authorized_user_file`
(`src/monitor/gmail_client.py`): validity flags used by `_authenticate`. -/
structure Credential where
  valid : Bool
  expired : Bool
  refresh_token : Bool
deriving DecidableEq, Repr

/-- Durable storage of the Gmail client: the token file's contents
(`Option.none` = missing or unloadable). -/
structure TokenStore where
  token_file : Option Credential
deriving DecidableEq, Repr

/-- Model of Python `str.lower()` on the string's characters (defined
structurally over the character list so it computes by reduction). -/
def lower (s : String) : String := String.mk (s.data.map Char.toLower)

/-- The `ValueError` message raised by `GmailClient._verify_account` on an
account mismatch (`src/monitor/gmail_client.py` lines 96-101). -/
def mismatch_message (expected authenticated : String) : String :=
  "Gmail account mismatch!\nExpected: " ++ expected ++ "\nAuthenticated: " ++
    authenticated ++
    "\nPlease delete token.json and authenticate with the correct account."

/-- `GmailClient._verify_account` (`src/monitor/gmail_client.py` lines
89-107). `profile_email` is the external `getProfile` result
(`Option.none` models that call raising, which the method swallows with a
warning). A mismatch raises the `ValueError`, which the surrounding `except`
re-raises; the token store is not touched on any path. -/
def GmailClient.verify_account (expected_email : String)
    (profile_email : Option String) (store : TokenStore) :
    TokenStore × Except String Unit :=
  match profile_email with
  | Option.none => (store, Except.ok ())
  | Option.some e =>
      let authenticated_email := lower e
      if authenticated_email ≠ lower expected_email then
        (store, Except.error (mismatch_message expected_email authenticated_email))
      else
        (store, Except.ok ())

/-- The tail of `GmailClient._authenticate` after a usable credential is in
hand (`src/monitor/gmail_client.py` lines 73-87): save the token to the
token file, then verify the account when an expected email is configured
(Python truthiness: `if self.expected_email:`). -/
def GmailClient.save_and_verify (creds : Credential)
    (expected_email profile_email : Option String) (store : TokenStore) :
    TokenStore × Except String Unit :=
  let store2 : TokenStore := { token_file := Option.some creds }
  match expected_email with
  | Option.some exp =>
      if exp.isEmpty then (store2, Except.ok ())
      else GmailClient.verify_account exp profile_email store2
  | Option.none => (store2, Except.ok ())

/-- `GmailClient._authenticate` (`src/monitor/gmail_client.py` lines 41-87),
threading the token file's contents through every path so that the state of
durable storage at the moment an exception propagates is explicit.
`refresh_succeeds` models the outcome of the external `creds.refresh(...)`
network call; a failed refresh raises `RefreshError`, mapped to the
"Token expired" exception. -/
def GmailClient.authenticate (store : TokenStore) (refresh_succeeds : Bool)
    (expected_email profile_email : Option String) :
    TokenStore × Except String Unit :=
  match store.token_file with
  | Option.none =>
      (store, Except.error "Token not found - authenticate via /admin panel")
  | Option.some creds =>
      if creds.valid then
        GmailClient.save_and_verify creds expected_email profile_email store
      else if creds.expired && creds.refresh_token then
        if refresh_succeeds then
          let refreshed : Credential :=
            { valid := true, expired := false,
              refresh_token := creds.refresh_token }
          GmailClient.save_and_verify refreshed expected_email profile_email store
        else
          (store, Except.error "Token expired - re-authentication required via /admin")
      else
        (store, Except.error "Token not found - authenticate via /admin panel")

/-- Convenience predicate: an `Except` outcome is a raised exception. -/
def isError : Except String Unit → Bool
  | Except.error _ => true
  | Except.ok _ => false

/-! ## Claims -/

/-- Claim C1, as stated, is false on `calculate_activity_status` of
`src/web/main.py`: a state with a non-null url and a null timestamp is
classified as `active` with the url retained, not as `waiting` with url
null. -/
theorem claim_C1_counterexample :
    (calculate_activity_status (fun _ => Option.none) 0 24 48
      { url := Option.some "https://x/livetrack/1", timestamp := Option.none,
        email_id := Option.none, subject := Option.none,
        error := Option.none }).status = "active" ∧
    (calculate_activity_status (fun _ => Option.none) 0 24 48
      { url := Option.some "https://x/livetrack/1", timestamp := Option.none,
        email_id := Option.none, subject := Option.none,
        error := Option.none }).url = Option.some "https://x/livetrack/1" := by
  constructor <;> rfl

/-- Claim C1, amended: a snapshot whose tracked url is null is classified
`waiting` with url null by `calculate_activity_status`, and
`EmailMonitor.get_activity_status` returns `waiting` with url null whenever
either the url or the timestamp is null; but `calculate_activity_status`
classifies a snapshot with a non-empty url and a null timestamp as `active`
with the url retained (and `age_hours` null), not as `waiting`. -/
theorem claim_C1_amended :
    (∀ (parse_iso : String → Option ℚ) (now ma da : ℚ)
        (ts eid subj err : Option String),
      (calculate_activity_status parse_iso now ma da
        { url := Option.none, timestamp := ts, email_id := eid,
          subject := subj, error := err }).status = "waiting" ∧
      (calculate_activity_status parse_iso now ma da
        { url := Option.none, timestamp := ts, email_id := eid,
          subject := subj, error := err }).url = Option.none) ∧
    (∀ (now ma : ℚ) (url : Option String) (t : Option ℚ),
      EmailMonitor.get_activity_status now ma url Option.none =
        { url := Option.none, timestamp := Option.none, is_stale := false,
          age_hours := Option.none, status := "waiting" } ∧
      EmailMonitor.get_activity_status now ma Option.none t =
        { url := Option.none, timestamp := Option.none, is_stale := false,
          age_hours := Option.none, status := "waiting" }) ∧
    (∀ (parse_iso : String → Option ℚ) (now ma da : ℚ) (u : String)
        (eid subj err : Option String),
      u.isEmpty = false →
      calculate_activity_status parse_iso now ma da
        { url := Option.some u, timestamp := Option.none, email_id := eid,
          subject := subj, error := err } =
        { url := Option.some u, timestamp := Option.none, is_stale := false,
          age_hours := Option.none, status := "active" }) := by
  refine ⟨?_, ?_, ?_⟩
  · intro parse_iso now ma da ts eid subj err
    unfold calculate_activity_status
    dsimp only
    split
    · split
      · exact ⟨rfl, rfl⟩
      · constructor <;> simp [mk_result, truthy]
    · constructor <;> simp [mk_result, truthy]
  · intro now ma url t
    constructor
    · simp [EmailMonitor.get_activity_status]
    · simp [EmailMonitor.get_activity_status, truthy]
  · intro parse_iso now ma da u eid subj err hu
    simp [calculate_activity_status, mk_result, truthy, hu]

/-- Claim C1 witness: concrete inputs exercising the amended claim, with
the hypothesis of its last conjunct discharged at a non-empty url. -/
theorem claim_C1_witness :
    (calculate_activity_status (fun _ => Option.none) 0 24 48
      { url := Option.none, timestamp := Option.none, email_id := Option.none,
        subject := Option.none, error := Option.none }).status = "waiting" ∧
    calculate_activity_status (fun _ => Option.none) 0 24 48
      { url := Option.some "u", timestamp := Option.none,
        email_id := Option.none, subject := Option.none,
        error := Option.none } =
      { url := Option.some "u", timestamp := Option.none, is_stale := false,
        age_hours := Option.none, status := "active" } := by
  constructor
  · exact (claim_C1_amended.1 (fun _ => Option.none) 0 24 48 Option.none
      Option.none Option.none Option.none).1
  · exact claim_C1_amended.2.2 (fun _ => Option.none) 0 24 48 "u"
      Option.none Option.none Option.none rfl

/-- Claim C2, as stated, is false: when the expected identity does not match
the authenticated account, `GmailClient._authenticate` does fail hard, but
the token file is not removed — the just-stored token material remains in
durable storage (the error message even asks the operator to delete it). -/
theorem claim_C2_counterexample :
    isError (GmailClient.authenticate
      { token_file := Option.some
          { valid := true, expired := false, refresh_token := true } }
      true (Option.some "expected@example.com")
      (Option.some "other@example.com")).2 = true ∧
    (GmailClient.authenticate
      { token_file := Option.some
          { valid := true, expired := false, refresh_token := true } }
      true (Option.some "expected@example.com")
      (Option.some "other@example.com")).1.token_file ≠ Option.none := by
  constructor
  · rfl
  · decide

/-- Claim C2, amended: when an expected account identity is configured and
the authenticated Gmail account does not match it, authentication fails hard
with the "Gmail account mismatch" error, but the just-stored token material
is NOT removed from durable storage — the token file still holds the stored
credential after the mismatch is detected, and the error message instructs
the operator to delete it manually. -/
theorem claim_C2_amended :
    ∀ (creds : Credential) (store : TokenStore) (refresh_succeeds : Bool)
      (exp profile : String),
      store.token_file = Option.some creds → creds.valid = true →
      exp.isEmpty = false → lower profile ≠ lower exp →
      GmailClient.authenticate store refresh_succeeds
        (Option.some exp) (Option.some profile) =
        ({ token_file := Option.some creds },
         Except.error (mismatch_message exp (lower profile))) := by
  intro creds store refresh_succeeds exp profile htf hv he hmm
  obtain ⟨tf⟩ := store
  simp only at htf
  subst htf
  simp [GmailClient.authenticate, hv, GmailClient.save_and_verify, he,
    GmailClient.verify_account, hmm]

/-- Claim C2 witness: the amended claim at a concrete mismatched pair of
accounts. -/
theorem claim_C2_witness :
    GmailClient.authenticate
      { token_file := Option.some
          { valid := true, expired := false, refresh_token := true } }
      true (Option.some "expected@example.com")
      (Option.some "other@example.com") =
      ({ token_file := Option.some
          { valid := true, expired := false, refresh_token := true } },
       Except.error
         (mismatch_message "expected@example.com"
           (lower "other@example.com"))) :=
  claim_C2_amended { valid := true, expired := false, refresh_token := true }
    { token_file := Option.some
        { valid := true, expired := false, refresh_token := true } }
    true "expected@example.com" "other@example.com" rfl rfl rfl (by decide)

/-- Claim C3: in any poll cycle whose fetch raises, the written snapshot has
url null and a non-null error message (the previous url is never preserved:
the record written is exactly the all-null record with the error set), and
any subsequent successful cycle (an event found, or a clean no-match) writes
a snapshot whose error field is null again. -/
theorem claim_C3 :
    ∀ (now : ℚ) (msg : String) (last : Option String) (now2 : ℚ)
      (e : EmailData) (last2 : Option String),
      (monitor_cycle now (FetchResult.raised msg) last).1 =
        [{ updated_at := now, url := Option.none, timestamp := Option.none,
           email_id := Option.none, subject := Option.none,
           error := Option.some ("Error checking emails: " ++ msg) }] ∧
      (monitor_cycle now2 (FetchResult.found e) last2).1.map
        StateSnapshot.error = [Option.none] ∧
      (monitor_cycle now2 FetchResult.nothing last2).1.map
        StateSnapshot.error = [Option.none] := by
  intro now msg last now2 e last2
  refine ⟨rfl, ?_, ?_⟩
  · simp [monitor_cycle, save_state]
  · simp [monitor_cycle, save_state]

/-- Helper for claim C4: each branch of the cycle body writes exactly one
snapshot. -/
theorem monitor_cycle_writes_one :
    ∀ (now : ℚ) (fetch : FetchResult) (last : Option String),
      (monitor_cycle now fetch last).1.length = 1 := by
  intro now fetch last
  cases fetch <;> rfl

/-- Claim C4: over any finite sequence of fetch outcomes, the monitoring
loop performs exactly one state-snapshot write per cycle — the list of
written snapshots has exactly the length of the outcome sequence. -/
theorem claim_C4 :
    ∀ (outcomes : List (ℚ × FetchResult)) (last : Option String),
      (monitor_loop outcomes last).1.length = outcomes.length := by
  intro outcomes
  induction outcomes with
  | nil => intro last; rfl
  | cons head rest ih =>
      intro last
      obtain ⟨now, fetch⟩ := head
      simp [monitor_loop, monitor_cycle_writes_one, ih]
      omega

/-- Helper: `calculate_activity_status` when the timestamp string is present,
non-empty and parses to `t`: the result is the dead-age check followed by
`mk_result` with the strict `>` staleness test. -/
theorem calc_parse_some (parse_iso : String → Option ℚ) (now ma da : ℚ)
    (state : WebState) (s : String) (t : ℚ)
    (hts : state.timestamp = Option.some s) (hs : s.isEmpty = false)
    (hp : parse_iso s = Option.some t) :
    calculate_activity_status parse_iso now ma da state =
      if now - t > da then
        { url := Option.none, timestamp := Option.none, is_stale := false,
          age_hours := Option.none, status := "waiting" }
      else
        mk_result state.url (Option.some s) (decide (now - t > ma))
          (Option.some (now - t)) := by
  unfold calculate_activity_status
  rw [hts]
  simp [hs, hp]

/-- Helper: `calculate_activity_status` when the timestamp string is present
and non-empty but fails to parse: the exception is swallowed and the result
is `mk_result` with `is_stale = false` and `age_hours` null. -/
theorem calc_parse_fail (parse_iso : String → Option ℚ) (now ma da : ℚ)
    (state : WebState) (s : String)
    (hts : state.timestamp = Option.some s) (hs : s.isEmpty = false)
    (hp : parse_iso s = Option.none) :
    calculate_activity_status parse_iso now ma da state =
      mk_result state.url (Option.some s) false Option.none := by
  unfold calculate_activity_status
  rw [hts]
  simp [hs, hp]

/-- Helper: `calculate_activity_status` when the timestamp string is present
but empty (Python-falsy): no parse is attempted. -/
theorem calc_ts_empty (parse_iso : String → Option ℚ) (now ma da : ℚ)
    (state : WebState) (s : String)
    (hts : state.timestamp = Option.some s) (hs : s.isEmpty = true) :
    calculate_activity_status parse_iso now ma da state =
      mk_result state.url (Option.some s) false Option.none := by
  unfold calculate_activity_status
  rw [hts]
  simp [hs]

/-- Claim C5, as stated, is false for `EmailMonitor.get_activity_status`
(`src/email_monitor.py`), which compares with `>=`: an age exactly equal to
the max-age threshold yields `is_stale = true` and status `last_activity`
there. -/
theorem claim_C5_counterexample :
    (EmailMonitor.get_activity_status 24 24
      (Option.some "https://x/livetrack/1") (Option.some 0)).is_stale = true ∧
    (EmailMonitor.get_activity_status 24 24
      (Option.some "https://x/livetrack/1") (Option.some 0)).status =
      "last_activity" := by
  have hcond : ¬ (truthy (Option.some "https://x/livetrack/1") = false ∨
      (Option.some (0 : ℚ)) = Option.none) := by decide
  constructor <;>
  · unfold EmailMonitor.get_activity_status
    rw [if_neg hcond]
    norm_num

/-- Claim C5, amended: in `calculate_activity_status` of `src/web/main.py`
the staleness comparison is strict `>`, so an age exactly equal to the
max-age threshold gives `is_stale = false`; but
`EmailMonitor.get_activity_status` of `src/email_monitor.py` uses `>=`, so
the same boundary age gives `is_stale = true` there. -/
theorem claim_C5_amended :
    (∀ (parse_iso : String → Option ℚ) (now ma da : ℚ) (state : WebState)
        (s : String) (t : ℚ),
      state.timestamp = Option.some s → parse_iso s = Option.some t →
      now - t = ma →
      (calculate_activity_status parse_iso now ma da state).is_stale = false) ∧
    (∀ (now ma : ℚ) (url : Option String) (t : ℚ),
      truthy url = true → now - t = ma →
      (EmailMonitor.get_activity_status now ma url
        (Option.some t)).is_stale = true) := by
  constructor
  · intro parse_iso now ma da state s t hts hp hage
    by_cases hs : s.isEmpty = true
    · rw [calc_ts_empty parse_iso now ma da state s hts hs]
      rfl
    · rw [calc_parse_some parse_iso now ma da state s t hts
        (Bool.eq_false_iff.mpr hs) hp]
      split
      · rfl
      · simp [mk_result, hage]
  · intro now ma url t hu hage
    simp [EmailMonitor.get_activity_status, hu, hage]

/-- Claim C5 witness: the boundary age 24 against threshold 24, in both
classifiers. -/
theorem claim_C5_witness :
    (calculate_activity_status (fun _ => Option.some 0) 24 24 48
      { url := Option.some "u",
        timestamp := Option.some "2026-01-01T00:00:00+00:00",
        email_id := Option.none, subject := Option.none,
        error := Option.none }).is_stale = false ∧
    (EmailMonitor.get_activity_status 24 24 (Option.some "u")
      (Option.some 0)).is_stale = true := by
  constructor
  · exact claim_C5_amended.1 (fun _ => Option.some 0) 24 24 48 _
      "2026-01-01T00:00:00+00:00" 0 rfl rfl (by norm_num)
  · exact claim_C5_amended.2 24 24 (Option.some "u") 0 rfl (by norm_num)

/-- Claim C6: in `calculate_activity_status`, an age strictly above the
dead-age threshold yields `waiting` with url, timestamp and age all null;
an age exactly equal to the dead-age threshold and strictly above max-age,
with a truthy url, still yields `last_activity` with the url retained. -/
theorem claim_C6 :
    ∀ (parse_iso : String → Option ℚ) (now ma da : ℚ) (state : WebState)
      (s : String) (t : ℚ),
      state.timestamp = Option.some s → s.isEmpty = false →
      parse_iso s = Option.some t →
      ((now - t > da →
         calculate_activity_status parse_iso now ma da state =
           { url := Option.none, timestamp := Option.none, is_stale := false,
             age_hours := Option.none, status := "waiting" }) ∧
       (now - t = da → now - t > ma → truthy state.url = true →
         calculate_activity_status parse_iso now ma da state =
           { url := state.url, timestamp := Option.some s, is_stale := true,
             age_hours := Option.some (now - t),
             status := "last_activity" })) := by
  intro parse_iso now ma da state s t hts hs hp
  rw [calc_parse_some parse_iso now ma da state s t hts hs hp]
  constructor
  · intro hdead
    simp [hdead]
  · intro heq hstale hu
    rw [heq] at hstale ⊢
    simp [mk_result, hu, lt_irrefl, hstale]

/-- Claim C6 witness: age 50 against dead-age 48 is cleared to waiting; age
exactly 48 (above max-age 24) is still shown as last_activity. -/
theorem claim_C6_witness :
    (calculate_activity_status (fun _ => Option.some 0) 50 24 48
      { url := Option.some "u", timestamp := Option.some "ts",
        email_id := Option.none, subject := Option.none,
        error := Option.none }).status = "waiting" ∧
    (calculate_activity_status (fun _ => Option.some 0) 48 24 48
      { url := Option.some "u", timestamp := Option.some "ts",
        email_id := Option.none, subject := Option.none,
        error := Option.none }).status = "last_activity" := by
  constructor
  · exact congrArg ActivityStatus.status
      ((claim_C6 (fun _ => Option.some 0) 50 24 48
        { url := Option.some "u", timestamp := Option.some "ts",
          email_id := Option.none, subject := Option.none,
          error := Option.none } "ts" 0 rfl rfl rfl).1 (by norm_num))
  · exact congrArg ActivityStatus.status
      ((claim_C6 (fun _ => Option.some 0) 48 24 48
        { url := Option.some "u", timestamp := Option.some "ts",
          email_id := Option.none, subject := Option.none,
          error := Option.none } "ts" 0 rfl rfl rfl).2
        (by norm_num) (by norm_num) rfl)

/-- Claim C7: a no-match cycle always writes exactly the empty snapshot
(url null, error null) and resets `last_email_id` to null, whether the
previous `last_email_id` was null or not — so the branch is idempotent and
always writes. -/
theorem claim_C7 :
    ∀ (now : ℚ) (last : Option String),
      monitor_cycle now FetchResult.nothing last =
        ([{ updated_at := now, url := Option.none, timestamp := Option.none,
            email_id := Option.none, subject := Option.none,
            error := Option.none }],
         Option.none) := by
  intro now last
  cases last <;> rfl

/-- Claim C8: feeding the identical event on two consecutive cycles yields
exactly one snapshot per cycle, with identical url, timestamp, email_id,
subject and error fields, and only `updated_at` advancing (it equals each
cycle's write time). -/
theorem claim_C8 :
    ∀ (t1 t2 : ℚ) (e : EmailData) (last : Option String),
      t1 < t2 →
      (monitor_cycle t1 (FetchResult.found e) last).1 =
        [save_state t1 (Option.some e) Option.none] ∧
      (monitor_cycle t2 (FetchResult.found e)
        (monitor_cycle t1 (FetchResult.found e) last).2).1 =
        [save_state t2 (Option.some e) Option.none] ∧
      (save_state t1 (Option.some e) Option.none).url =
        (save_state t2 (Option.some e) Option.none).url ∧
      (save_state t1 (Option.some e) Option.none).timestamp =
        (save_state t2 (Option.some e) Option.none).timestamp ∧
      (save_state t1 (Option.some e) Option.none).email_id =
        (save_state t2 (Option.some e) Option.none).email_id ∧
      (save_state t1 (Option.some e) Option.none).subject =
        (save_state t2 (Option.some e) Option.none).subject ∧
      (save_state t1 (Option.some e) Option.none).error =
        (save_state t2 (Option.some e) Option.none).error ∧
      (save_state t1 (Option.some e) Option.none).updated_at = t1 ∧
      (save_state t2 (Option.some e) Option.none).updated_at = t2 ∧
      (save_state t1 (Option.some e) Option.none).updated_at <
        (save_state t2 (Option.some e) Option.none).updated_at := by
  intro t1 t2 e last h
  refine ⟨rfl, rfl, rfl, rfl, rfl, rfl, rfl, rfl, rfl, ?_⟩
  simpa [save_state] using h

/-- Claim C8 witness: two cycles at times 0 and 1 fed the same concrete
event. -/
theorem claim_C8_witness :
    (monitor_cycle 0 (FetchResult.found
      { id := "e1", subject := "LiveTrack", date := "d",
        timestamp := Option.some "2026-01-01T00:00:00+00:00",
        livetrack_url := Option.some "u1" }) Option.none).1 =
      [save_state 0 (Option.some
        { id := "e1", subject := "LiveTrack", date := "d",
          timestamp := Option.some "2026-01-01T00:00:00+00:00",
          livetrack_url := Option.some "u1" }) Option.none] ∧
    (monitor_cycle 1 (FetchResult.found
      { id := "e1", subject := "LiveTrack", date := "d",
        timestamp := Option.some "2026-01-01T00:00:00+00:00",
        livetrack_url := Option.some "u1" })
      (monitor_cycle 0 (FetchResult.found
        { id := "e1", subject := "LiveTrack", date := "d",
          timestamp := Option.some "2026-01-01T00:00:00+00:00",
          livetrack_url := Option.some "u1" }) Option.none).2).1 =
      [save_state 1 (Option.some
        { id := "e1", subject := "LiveTrack", date := "d",
          timestamp := Option.some "2026-01-01T00:00:00+00:00",
          livetrack_url := Option.some "u1" }) Option.none] ∧
    (save_state 0 (Option.some
      { id := "e1", subject := "LiveTrack", date := "d",
        timestamp := Option.some "2026-01-01T00:00:00+00:00",
        livetrack_url := Option.some "u1" }) Option.none).url =
      (save_state 1 (Option.some
        { id := "e1", subject := "LiveTrack", date := "d",
          timestamp := Option.some "2026-01-01T00:00:00+00:00",
          livetrack_url := Option.some "u1" }) Option.none).url ∧
    (save_state 0 (Option.some
      { id := "e1", subject := "LiveTrack", date := "d",
        timestamp := Option.some "2026-01-01T00:00:00+00:00",
        livetrack_url := Option.some "u1" }) Option.none).timestamp =
      (save_state 1 (Option.some
        { id := "e1", subject := "LiveTrack", date := "d",
          timestamp := Option.some "2026-01-01T00:00:00+00:00",
          livetrack_url := Option.some "u1" }) Option.none).timestamp ∧
    (save_state 0 (Option.some
      { id := "e1", subject := "LiveTrack", date := "d",
        timestamp := Option.some "2026-01-01T00:00:00+00:00",
        livetrack_url := Option.some "u1" }) Option.none).email_id =
      (save_state 1 (Option.some
        { id := "e1", subject := "LiveTrack", date := "d",
          timestamp := Option.some "2026-01-01T00:00:00+00:00",
          livetrack_url := Option.some "u1" }) Option.none).email_id ∧
    (save_state 0 (Option.some
      { id := "e1", subject := "LiveTrack", date := "d",
        timestamp := Option.some "2026-01-01T00:00:00+00:00",
        livetrack_url := Option.some "u1" }) Option.none).subject =
      (save_state 1 (Option.some
        { id := "e1", subject := "LiveTrack", date := "d",
          timestamp := Option.some "2026-01-01T00:00:00+00:00",
          livetrack_url := Option.some "u1" }) Option.none).subject ∧
    (save_state 0 (Option.some
      { id := "e1", subject := "LiveTrack", date := "d",
        timestamp := Option.some "2026-01-01T00:00:00+00:00",
        livetrack_url := Option.some "u1" }) Option.none).error =
      (save_state 1 (Option.some
        { id := "e1", subject := "LiveTrack", date := "d",
          timestamp := Option.some "2026-01-01T00:00:00+00:00",
          livetrack_url := Option.some "u1" }) Option.none).error ∧
    (save_state 0 (Option.some
      { id := "e1", subject := "LiveTrack", date := "d",
        timestamp := Option.some "2026-01-01T00:00:00+00:00",
        livetrack_url := Option.some "u1" }) Option.none).updated_at = 0 ∧
    (save_state 1 (Option.some
      { id := "e1", subject := "LiveTrack", date := "d",
        timestamp := Option.some "2026-01-01T00:00:00+00:00",
        livetrack_url := Option.some "u1" }) Option.none).updated_at = 1 ∧
    (save_state 0 (Option.some
      { id := "e1", subject := "LiveTrack", date := "d",
        timestamp := Option.some "2026-01-01T00:00:00+00:00",
        livetrack_url := Option.some "u1" }) Option.none).updated_at <
      (save_state 1 (Option.some
        { id := "e1", subject := "LiveTrack", date := "d",
          timestamp := Option.some "2026-01-01T00:00:00+00:00",
          livetrack_url := Option.some "u1" }) Option.none).updated_at :=
  claim_C8 0 1
    { id := "e1", subject := "LiveTrack", date := "d",
      timestamp := Option.some "2026-01-01T00:00:00+00:00",
      livetrack_url := Option.some "u1" } Option.none (by norm_num)

/-- Claim C9, as stated, is false on the exact message: when the state file
does not exist, `read_state` sets the error field to
"Monitor service not running", not to "producer not running". -/
theorem claim_C9_counterexample :
    (read_state StateFileRead.missing).error ≠
      Option.some "producer not running" ∧
    (read_state StateFileRead.missing).error =
      Option.some "Monitor service not running" := by
  constructor
  · decide
  · rfl

/-- Claim C9, amended: when the state file does not exist, `read_state`
returns (without raising) a state with url null and the error field set to
the non-null message "Monitor service not running", and the classifier then
reports status `waiting` with url null. -/
theorem claim_C9_amended :
    read_state StateFileRead.missing =
      { url := Option.none, timestamp := Option.none,
        email_id := Option.none, subject := Option.none,
        error := Option.some "Monitor service not running" } ∧
    ∀ (parse_iso : String → Option ℚ) (now ma da : ℚ),
      (calculate_activity_status parse_iso now ma da
        (read_state StateFileRead.missing)).status = "waiting" ∧
      (calculate_activity_status parse_iso now ma da
        (read_state StateFileRead.missing)).url = Option.none := by
  refine ⟨rfl, ?_⟩
  intro parse_iso now ma da
  constructor <;> rfl

/-- Claim C10: a persisted state with a truthy url and a non-empty timestamp
string that fails to parse is classified `active` with the url retained,
`is_stale = false` and `age_hours` null — the parse error is swallowed and
the stale/dead thresholds are never applied. -/
theorem claim_C10 :
    ∀ (parse_iso : String → Option ℚ) (now ma da : ℚ) (state : WebState)
      (s : String),
      state.timestamp = Option.some s → s.isEmpty = false →
      parse_iso s = Option.none → truthy state.url = true →
      calculate_activity_status parse_iso now ma da state =
        { url := state.url, timestamp := Option.some s, is_stale := false,
          age_hours := Option.none, status := "active" } := by
  intro parse_iso now ma da state s hts hs hp hu
  rw [calc_parse_fail parse_iso now ma da state s hts hs hp]
  simp [mk_result, hu]

/-- Claim C10 witness: a concrete state with a url and an unparseable
timestamp string is returned as `active` with the url retained. -/
theorem claim_C10_witness :
    calculate_activity_status (fun _ => Option.none) 0 24 48
      { url := Option.some "https://x/livetrack/1",
        timestamp := Option.some "not-a-date", email_id := Option.none,
        subject := Option.none, error := Option.none } =
      { url := Option.some "https://x/livetrack/1",
        timestamp := Option.some "not-a-date", is_stale := false,
        age_hours := Option.none, status := "active" } :=
  claim_C10 (fun _ => Option.none) 0 24 48
    { url := Option.some "https://x/livetrack/1",
      timestamp := Option.some "not-a-date", email_id := Option.none,
      subject := Option.none, error := Option.none } "not-a-date"
    rfl rfl rfl rfl
